import Mathlib

/-!
# ec2-shutdown-manager: a shallow embedding of `src/index.js`

The program is sequential glue around two remote operations of the EC2 client
(`DescribeInstancesCommand`, `StopInstancesCommand`).  The embedding keeps

* the argument resolver `parseArgs` as a pure function of the argument vector and of
  `configData.instances`;
* the remote client as a pair of oracles (`Ec2Client`), one per command, each answering
  with either a rejected promise (`Except.error`) or a response object whose optional
  members are `Option`s;
* every console line and every remote request as an `Event` of a trace, so that
  "no stop request is issued" and "a warning is logged" are statements about traces;
* the way an `async` function ends as a `Completion`: it returns, it throws, or it
  ends the process through `process.exit`.
-/

namespace Ec2Shutdown

/-! ## JavaScript helpers -/

/-- The JavaScript `s.startsWith(p)`, on the characters of the two strings. -/
def startsWith (s p : String) : Bool :=
  p.data.isPrefixOf s.data

/-- The test `arg => arg.startsWith('i-')` used by every filter of `parseArgs`. -/
def isInstanceId (arg : String) : Bool :=
  startsWith arg "i-"

/-- The JavaScript `args.includes(x)`. -/
def includes (args : List String) (x : String) : Bool :=
  args.contains x

/-- The JavaScript `args.indexOf(x)`; only used on paths where `args.includes(x)` holds,
so the `-1` of JavaScript for an absent element never arises. -/
def indexOf (args : List String) (x : String) : Nat :=
  args.indexOf x

/-- The JavaScript `args.slice(start)`. -/
def slice (args : List String) (start : Nat) : List String :=
  args.drop start

/-! ## Argument resolver -/

/-- The `action` member of the object returned by `parseArgs`. -/
inductive Action
  | status
  | stop
  deriving DecidableEq, Repr

/-- The `mode` member of the object returned by `parseArgs`. -/
inductive Mode
  | config
  | specific
  | all
  deriving DecidableEq, Repr

/-- The object returned by `parseArgs`.  `instanceIds` is `none` when it is taken from a
configuration file that has no `instances` member (JavaScript `undefined`). -/
structure Intent where
  action : Action
  mode : Mode
  instanceIds : Option (List String)
  deriving DecidableEq, Repr

/-- The function `parseArgs` of `index.js`; `args` is `process.argv.slice(2)` and
`configInstances` is `configData.instances`. -/
def parseArgs (args : List String) (configInstances : Option (List String)) : Intent :=
  if args.length = 0 then
    { action := .stop, mode := .config, instanceIds := configInstances }
  else if includes args "--status" then
    let statusIndex := indexOf args "--status"
    let instanceIds := (slice args (statusIndex + 1)).filter isInstanceId
    if instanceIds.length > 0 then
      { action := .status, mode := .specific, instanceIds := some instanceIds }
    else
      { action := .status, mode := .config, instanceIds := configInstances }
  else if includes args "--all" then
    { action := .stop, mode := .all, instanceIds := configInstances }
  else if includes args "--instances" then
    let instanceIndex := indexOf args "--instances"
    let instanceIds := (slice args (instanceIndex + 1)).filter isInstanceId
    { action := .stop, mode := .specific, instanceIds := some instanceIds }
  else
    let instanceIds := args.filter isInstanceId
    if instanceIds.length > 0 then
      { action := .stop, mode := .specific, instanceIds := some instanceIds }
    else
      { action := .stop, mode := .config, instanceIds := configInstances }

/-! ## Console, remote requests and the end of a call -/

/-- The five methods of the `logger` object. -/
inductive Severity
  | info
  | success
  | warning
  | error
  | data
  deriving DecidableEq, Repr

/-- What the program does to the outside world, in program order: a line written through
`logger`, a line written through `console.log` directly, and the two kinds of request
handed to `ec2Client.send`. -/
inductive Event
  | log (severity : Severity) (msg : String)
  | console (line : String)
  | describeRequest (instanceIds : List String)
  | stopRequest (instanceIds : List (Option String))
  deriving DecidableEq, Repr

/-- The tag that `logger` puts in front of a message. -/
def Severity.tag : Severity → String
  | .info => "[INFO]    "
  | .success => "[SUCCESS] "
  | .warning => "[WARNING] "
  | .error => "[ERROR]   "
  | .data => "[DATA]    "

/-- The text a console event writes (`none` for a remote request). -/
def Event.line : Event → Option String
  | .log severity msg => some (severity.tag ++ msg)
  | .console line => some line
  | .describeRequest _ => none
  | .stopRequest _ => none

/-- A thrown JavaScript `Error`; the program only ever reads its `message`. -/
structure JsError where
  message : String
  deriving DecidableEq, Repr

/-- The `TypeError` raised by reading member `member` of `undefined`. -/
def typeErrorReading (member : String) : JsError :=
  { message := "Cannot read properties of undefined (reading '" ++ member ++ "')" }

/-- How a call ends: it returns a value, it throws, or it ends the whole process with
`process.exit(code)`. -/
inductive Completion (α : Type)
  | returned (value : α)
  | threw (error : JsError)
  | exited (code : Nat)
  deriving DecidableEq, Repr

/-- A finished call: the events it produced, in order, and how it ended. -/
structure Run (α : Type) where
  events : List Event
  completion : Completion α
  deriving DecidableEq, Repr

/-- Sequencing of two calls: the second one runs only when the first one returned. -/
def Run.bind {α β : Type} (r : Run α) (k : α → Run β) : Run β :=
  match r.completion with
  | .returned value => { events := r.events ++ (k value).events, completion := (k value).completion }
  | .threw error => { events := r.events, completion := .threw error }
  | .exited code => { events := r.events, completion := .exited code }

instance : Monad Run where
  pure value := { events := [], completion := .returned value }
  bind := Run.bind

/-- A single event followed by a normal return. -/
def emit (e : Event) : Run Unit :=
  { events := [e], completion := .returned () }

/-- The method `logger.<severity>(msg)`. -/
def logger (severity : Severity) (msg : String) : Run Unit :=
  emit (.log severity msg)

/-- A direct `console.log(line)`. -/
def consoleLog (line : String) : Run Unit :=
  emit (.console line)

/-- A `throw`. -/
def Run.throw {α : Type} (error : JsError) : Run α :=
  { events := [], completion := .threw error }

/-- The call `process.exit(code)`: nothing after it runs. -/
def processExit {α : Type} (code : Nat) : Run α :=
  { events := [], completion := .exited code }

/-- The statement `try { body } catch (error) { handler }`: a throw of the body is
handled, a `process.exit` is not. -/
def Run.tryCatch {α : Type} (body : Run α) (handler : JsError → Run α) : Run α :=
  match body.completion with
  | .threw error =>
    { events := body.events ++ (handler error).events, completion := (handler error).completion }
  | _ => body

/-- The JavaScript `xs.forEach(f)` for a callback with effects: it stops at the first
callback that does not return. -/
def forEach {α : Type} (f : α → Run Unit) : List α → Run Unit
  | [] => pure ()
  | x :: rest => Run.bind (f x) (fun _ => forEach f rest)

/-- The result of an `Except` computation as the end of a call. -/
def Run.ofExcept {α : Type} : Except JsError α → Run α
  | .ok value => pure value
  | .error error => Run.throw error

/-! ## Strings -/

/-- The text of a value that is a string or `undefined` inside a template literal. -/
def jsStr (v : Option String) : String :=
  v.getD "undefined"

/-- Whether a value that is a string or `undefined` is truthy: `undefined` and the empty
string are not. -/
def truthy : Option String → Bool
  | none => false
  | some s => s != ""

/-- The JavaScript `a || b` on values that are strings or `undefined`. -/
def jsOr (a b : Option String) : Option String :=
  if truthy a then a else b

/-- The JavaScript `a || 'literal'`: `a` when it is truthy and the literal otherwise. -/
def orDefault (a : Option String) (literal : String) : String :=
  match a with
  | some s => if s != "" then s else literal
  | none => literal

/-- The length of a string in UTF-16 code units, which is what `padEnd` counts. -/
def utf16Length (s : String) : Nat :=
  (s.data.map (fun c => if c.val.toNat < 65536 then 1 else 2)).sum

/-- The JavaScript `s.padEnd(n)`. -/
def padEnd (s : String) (n : Nat) : String :=
  s ++ String.mk (List.replicate (n - utf16Length s) ' ')

/-- The JavaScript `s.repeat(n)`. -/
def jsRepeat (s : String) (n : Nat) : String :=
  String.join (List.replicate n s)

/-! ## Instance directory client -/

/-- One element of `instance.Tags`. -/
structure Tag where
  Key : Option String
  Value : Option String
  deriving DecidableEq, Repr

/-- The `State`, `PreviousState` and `CurrentState` objects of the provider. -/
structure InstanceState where
  Name : Option String
  deriving DecidableEq, Repr

/-- One element of `reservation.Instances`, with the members the program reads. -/
structure Instance where
  InstanceId : Option String
  State : Option InstanceState
  Tags : Option (List Tag)
  PublicIpAddress : Option String
  PrivateIpAddress : Option String
  deriving DecidableEq, Repr

/-- One element of `response.Reservations`. -/
structure Reservation where
  Instances : Option (List Instance)
  deriving DecidableEq, Repr

/-- The response of `DescribeInstancesCommand`. -/
structure DescribeInstancesResponse where
  Reservations : Option (List Reservation)
  deriving DecidableEq, Repr

/-- One element of `response.StoppingInstances`. -/
structure InstanceStateChange where
  InstanceId : Option String
  PreviousState : Option InstanceState
  CurrentState : Option InstanceState
  deriving DecidableEq, Repr

/-- The response of `StopInstancesCommand`. -/
structure StopInstancesResponse where
  StoppingInstances : Option (List InstanceStateChange)
  deriving DecidableEq, Repr

/-- The remote side of `ec2Client.send`: for each command, the promise is rejected with
an error or resolved with a response. -/
structure Ec2Client where
  describe : List String → Except JsError DescribeInstancesResponse
  stop : List (Option String) → Except JsError StopInstancesResponse

/-- The normalized record pushed by `getInstanceDetails`. -/
structure InstanceRecord where
  id : Option String
  state : Option String
  name : String
  ip : String
  deriving DecidableEq, Repr

/-- The expression `instance.Tags?.find(tag => tag.Key === 'Name')?.Value`. -/
def nameTagValue (inst : Instance) : Option String :=
  (inst.Tags.bind (fun tags => tags.find? (fun tag => tag.Key == some "Name"))).bind
    (fun tag => tag.Value)

/-- The body of the inner `forEach` callback of `getInstanceDetails`: reading
`instance.State.Name` throws when `State` is missing, otherwise a record is pushed. -/
def pushInstance (instances : List InstanceRecord) (inst : Instance) :
    Except JsError (List InstanceRecord) :=
  match inst.State with
  | none => .error (typeErrorReading "Name")
  | some state =>
    .ok (instances ++
      [{ id := inst.InstanceId
         state := state.Name
         name := orDefault (nameTagValue inst) "N/A"
         ip := orDefault (jsOr inst.PublicIpAddress inst.PrivateIpAddress) "N/A" }])

/-- The loop `reservation.Instances.forEach(...)` on the array `instances`. -/
def forEachInstance (instances : List InstanceRecord) :
    List Instance → Except JsError (List InstanceRecord)
  | [] => .ok instances
  | inst :: rest =>
    match pushInstance instances inst with
    | .error error => .error error
    | .ok pushed => forEachInstance pushed rest

/-- The loop `response.Reservations.forEach(...)` on the array `instances`. -/
def forEachReservation (instances : List InstanceRecord) :
    List Reservation → Except JsError (List InstanceRecord)
  | [] => .ok instances
  | reservation :: rest =>
    match reservation.Instances with
    | none => .error (typeErrorReading "forEach")
    | some found =>
      match forEachInstance instances found with
      | .error error => .error error
      | .ok pushed => forEachReservation pushed rest

/-- Lines 42 to 54 of `index.js`: the response turned into records. -/
def collectInstances (response : DescribeInstancesResponse) :
    Except JsError (List InstanceRecord) :=
  match response.Reservations with
  | none => .error (typeErrorReading "forEach")
  | some reservations => forEachReservation [] reservations

/-- The statement `await ec2Client.send(new DescribeInstancesCommand(...))`. -/
def sendDescribe (ec2 : Ec2Client) (instanceIds : List String) :
    Run DescribeInstancesResponse :=
  Run.bind (emit (.describeRequest instanceIds)) (fun _ => Run.ofExcept (ec2.describe instanceIds))

/-- The statement `await ec2Client.send(new StopInstancesCommand(...))`. -/
def sendStop (ec2 : Ec2Client) (instanceIds : List (Option String)) :
    Run StopInstancesResponse :=
  Run.bind (emit (.stopRequest instanceIds)) (fun _ => Run.ofExcept (ec2.stop instanceIds))

/-- The function `getInstanceDetails` of `index.js`. -/
def getInstanceDetails (ec2 : Ec2Client) (instanceIds : List String) :
    Run (List InstanceRecord) :=
  Run.tryCatch
    (Run.bind (sendDescribe ec2 instanceIds) (fun response =>
      Run.ofExcept (collectInstances response)))
    (fun error =>
      Run.bind (logger .error ("Failed to fetch instance details: " ++ error.message))
        (fun _ => pure []))

/-! ## Workflows -/

/-- The callback that prints one row of the status table; `instance.id.padEnd` throws
when the identifier is `undefined`. -/
def printRow (inst : InstanceRecord) : Run Unit :=
  match inst.id with
  | none => Run.throw (typeErrorReading "padEnd")
  | some id =>
    consoleLog (padEnd id 22 ++ " | " ++ padEnd inst.name 27 ++ " | " ++ padEnd inst.ip 15 ++
      " | " ++ jsStr inst.state)

/-- The function `checkStatus` of `index.js`. -/
def checkStatus (ec2 : Ec2Client) (instanceIds : Option (List String)) : Run Unit :=
  match instanceIds with
  | none => logger .warning "No instances to check."
  | some ids =>
    if ids.length = 0 then
      logger .warning "No instances to check."
    else do
      logger .info ("Checking status of " ++ toString ids.length ++ " instance(s)...")
      consoleLog ""
      let instances ← getInstanceDetails ec2 ids
      if instances.length = 0 then
        logger .warning "No instances found or error occurred."
      else do
        consoleLog "Instance Status:"
        consoleLog (jsRepeat "─" 100)
        consoleLog (padEnd "INSTANCE ID" 22 ++ " | " ++ padEnd "NAME" 27 ++ " | " ++
          padEnd "IP ADDRESS" 15 ++ " | STATUS")
        consoleLog (jsRepeat "─" 100)
        forEach printRow instances
        consoleLog (jsRepeat "─" 100)

/-- The callback that prints one state transition of the stop response; reading
`PreviousState.Name` or `CurrentState.Name` throws when the object is missing. -/
def printTransition (change : InstanceStateChange) : Run Unit :=
  match change.PreviousState with
  | none => Run.throw (typeErrorReading "Name")
  | some previous =>
    match change.CurrentState with
    | none => Run.throw (typeErrorReading "Name")
    | some current =>
      logger .data (jsStr change.InstanceId ++ ": " ++ jsStr previous.Name ++ " → " ++
        jsStr current.Name)

/-- The body of the `try` block of `stopInstances` (lines 116 to 127). -/
def stopTryBody (ec2 : Ec2Client) (runningInstances : List (Option String)) : Run Unit := do
  let response ← sendStop ec2 runningInstances
  consoleLog ""
  logger .success "Stop command initiated successfully"
  consoleLog "\nInstance state transitions:"
  match response.StoppingInstances with
  | none => Run.throw (typeErrorReading "forEach")
  | some changes => forEach printTransition changes

/-- The function `stopInstances` of `index.js`. -/
def stopInstances (ec2 : Ec2Client) (instanceIds : Option (List String)) : Run Unit :=
  match instanceIds with
  | none => logger .warning "No instances to stop."
  | some ids =>
    if ids.length = 0 then
      logger .warning "No instances to stop."
    else do
      logger .info ("Attempting to stop " ++ toString ids.length ++ " instance(s)...")
      let instances ← getInstanceDetails ec2 ids
      consoleLog "\nCurrent instance state:"
      forEach (fun inst => logger .data (jsStr inst.id ++ " (" ++ inst.name ++ ") - State: " ++
        jsStr inst.state)) instances
      let runningInstances :=
        (instances.filter (fun i => i.state == some "running")).map (fun i => i.id)
      if runningInstances.length = 0 then do
        consoleLog ""
        logger .success
          "All instances are already stopped or in a stopping state. No action needed."
      else do
        logger .info (toString runningInstances.length ++
          " instance(s) are running and will be stopped.")
        Run.tryCatch (stopTryBody ec2 runningInstances) (fun error => do
          consoleLog ""
          logger .error ("Failed to stop instances: " ++ error.message)
          processExit 1)

/-- The function `main` of `index.js`, on `process.argv.slice(2)` and
`configData.instances`. -/
def main (ec2 : Ec2Client) (args : List String) (configInstances : Option (List String)) :
    Run Unit := do
  consoleLog "=== EC2 Shutdown Manager ===\n"
  let intent := parseArgs args configInstances
  if intent.action = .status then do
    if intent.mode = .config then
      logger .info "Checking status of instances from config.json"
    else
      logger .info "Checking status of specific instances"
    checkStatus ec2 intent.instanceIds
  else do
    if intent.mode = .config ∨ intent.mode = .all then
      logger .info "Stopping instances from config.json"
    else
      logger .info "Stopping specific instances"
    stopInstances ec2 intent.instanceIds
  consoleLog "\n=== Operation Complete ==="

/-! ## Reading a trace -/

/-- The payloads of the stop requests of a trace, in order. -/
def stopRequests (events : List Event) : List (List (Option String)) :=
  events.filterMap (fun e => match e with
    | .stopRequest ids => some ids
    | _ => none)

/-- The payloads of the describe requests of a trace, in order. -/
def describeRequests (events : List Event) : List (List String) :=
  events.filterMap (fun e => match e with
    | .describeRequest ids => some ids
    | _ => none)

/-- The messages logged with a given severity, in order. -/
def logged (severity : Severity) (events : List Event) : List String :=
  events.filterMap (fun e => match e with
    | .log s msg => if s = severity then some msg else none
    | _ => none)

/-- The records that `getInstanceDetails` hands to its caller. -/
def describedRecords (ec2 : Ec2Client) (instanceIds : List String) : List InstanceRecord :=
  match (getInstanceDetails ec2 instanceIds).completion with
  | .returned instances => instances
  | _ => []

/-- Whether a describe response has every member that `getInstanceDetails` dereferences:
`Reservations`, the `Instances` of each reservation and the `State` of each instance. -/
def wellFormed (response : DescribeInstancesResponse) : Bool :=
  match response.Reservations with
  | none => false
  | some reservations =>
    reservations.all (fun reservation =>
      match reservation.Instances with
      | none => false
      | some found => found.all (fun inst => inst.State.isSome))

/-- Whether a stop response has every member that the report of the transitions
dereferences: `StoppingInstances` and the two states of each of its elements. -/
def transitionsReadable (response : StopInstancesResponse) : Bool :=
  match response.StoppingInstances with
  | none => false
  | some changes =>
    changes.all (fun change => change.PreviousState.isSome && change.CurrentState.isSome)

/-- Whether the promise of the stop request with this payload is rejected. -/
def stopCallFails (ec2 : Ec2Client) (payload : List (Option String)) : Bool :=
  match ec2.stop payload with
  | .error _ => true
  | .ok _ => false

/-- Whether the stop request with this payload is answered by a response whose
transitions cannot be read. -/
def stopResponseUnreadable (ec2 : Ec2Client) (payload : List (Option String)) : Bool :=
  match ec2.stop payload with
  | .error _ => false
  | .ok response => !transitionsReadable response

/-! ## The record as the specification words it

The instances of a response in provider order, and the record the specification
announces for each, in two readings: `claimedRecord` takes "absent" literally (a member
that is missing), `displayedRecord` also counts an empty string as absent. -/

/-- The instances of a response in provider order: reservations in order, instances of
each reservation in order. -/
def providerOrder (response : DescribeInstancesResponse) : List Instance :=
  (response.Reservations.getD []).flatMap (fun reservation => reservation.Instances.getD [])

/-- The first tag of an instance whose key is `Name`, if any. -/
def firstNameTag (inst : Instance) : Option Tag :=
  (inst.Tags.getD []).find? (fun tag => tag.Key = some "Name")

/-- The display name as claimed: the value of the first `Name` tag, and `N/A` when there
is no tag list, no `Name` tag, or the tag has no value. -/
def claimedName (inst : Instance) : String :=
  match firstNameTag inst with
  | none => "N/A"
  | some tag =>
    match tag.Value with
    | none => "N/A"
    | some value => value

/-- The address as claimed: the public one when present, otherwise the private one when
present, otherwise `N/A`. -/
def claimedIp (inst : Instance) : String :=
  match inst.PublicIpAddress with
  | some address => address
  | none =>
    match inst.PrivateIpAddress with
    | some address => address
    | none => "N/A"

/-- The record as claimed. -/
def claimedRecord (inst : Instance) : InstanceRecord :=
  { id := inst.InstanceId
    state := inst.State.bind (fun state => state.Name)
    name := claimedName inst
    ip := claimedIp inst }

/-- The display name when an empty value counts as absent. -/
def displayedName (inst : Instance) : String :=
  match firstNameTag inst with
  | none => "N/A"
  | some tag =>
    match tag.Value with
    | none => "N/A"
    | some value => if value = "" then "N/A" else value

/-- Whether an optional member is present and not the empty string. -/
def presentNonEmpty (v : Option String) : Prop :=
  ∃ s, v = some s ∧ s ≠ ""

instance (v : Option String) : Decidable (presentNonEmpty v) :=
  match v with
  | none => isFalse (by rintro ⟨s, h, _⟩; cases h)
  | some s =>
    if h : s = "" then isFalse (by rintro ⟨t, ht, hne⟩; cases ht; exact hne h)
    else isTrue ⟨s, rfl, h⟩

/-- The address when an empty address counts as absent. -/
def displayedIp (inst : Instance) : String :=
  if presentNonEmpty inst.PublicIpAddress then inst.PublicIpAddress.getD "N/A"
  else if presentNonEmpty inst.PrivateIpAddress then inst.PrivateIpAddress.getD "N/A"
  else "N/A"

/-- The record when an empty string counts as absent. -/
def displayedRecord (inst : Instance) : InstanceRecord :=
  { id := inst.InstanceId
    state := inst.State.bind (fun state => state.Name)
    name := displayedName inst
    ip := displayedIp inst }

/-! ## Concrete inputs -/

/-- A running instance `i-7` with a name and two addresses. -/
def runningI7 : Instance :=
  { InstanceId := some "i-7"
    State := some { Name := some "running" }
    Tags := some [{ Key := some "env", Value := some "prod" }, { Key := some "Name", Value := some "web" }]
    PublicIpAddress := some "203.0.113.7"
    PrivateIpAddress := some "10.0.0.7" }

/-- A stopped instance `i-8` without tags and with a private address only. -/
def stoppedI8 : Instance :=
  { InstanceId := some "i-8"
    State := some { Name := some "stopped" }
    Tags := none
    PublicIpAddress := none
    PrivateIpAddress := some "10.0.0.8" }

/-- A running instance `i-1` whose `Name` tag has the empty string as its value. -/
def blankNameI1 : Instance :=
  { InstanceId := some "i-1"
    State := some { Name := some "running" }
    Tags := some [{ Key := some "Name", Value := some "" }]
    PublicIpAddress := none
    PrivateIpAddress := some "10.0.0.5" }

/-- A describe response holding the given instances in one reservation. -/
def oneReservation (found : List Instance) : DescribeInstancesResponse :=
  { Reservations := some [{ Instances := some found }] }

/-- A stop response reporting `running → stopping` for each identifier of the payload. -/
def stoppingAll (payload : List (Option String)) : StopInstancesResponse :=
  { StoppingInstances := some (payload.map (fun id =>
      { InstanceId := id
        PreviousState := some { Name := some "running" }
        CurrentState := some { Name := some "stopping" } })) }

/-- A client that describes `i-7` (running) and `i-8` (stopped) and stops what it is asked
to stop. -/
def healthyClient : Ec2Client :=
  { describe := fun _ => .ok (oneReservation [runningI7, stoppedI8])
    stop := fun payload => .ok (stoppingAll payload) }

/-- A client whose describe request is rejected. -/
def describeRejectedClient : Ec2Client :=
  { describe := fun _ => .error { message := "The instance ID 'i-1' does not exist" }
    stop := fun payload => .ok (stoppingAll payload) }

/-- A client that describes no reservation at all. -/
def emptyClient : Ec2Client :=
  { describe := fun _ => .ok { Reservations := some [] }
    stop := fun payload => .ok (stoppingAll payload) }

/-- A client that describes `i-7` as running and whose stop request is rejected. -/
def stopRejectedClient : Ec2Client :=
  { describe := fun _ => .ok (oneReservation [runningI7])
    stop := fun _ => .error { message := "UnauthorizedOperation" } }

/-- A client that describes `i-7` as running and whose stop request is answered by a
response without `StoppingInstances`. -/
def bareStopResponseClient : Ec2Client :=
  { describe := fun _ => .ok (oneReservation [runningI7])
    stop := fun _ => .ok { StoppingInstances := none } }

/-- A client that describes the instance with the blank `Name` tag. -/
def blankNameClient : Ec2Client :=
  { describe := fun _ => .ok (oneReservation [blankNameI1])
    stop := fun payload => .ok (stoppingAll payload) }

/-- A client whose describe response holds an instance without `State`. -/
def statelessClient : Ec2Client :=
  { describe := fun _ => .ok (oneReservation [runningI7, { stoppedI8 with State := none }])
    stop := fun payload => .ok (stoppingAll payload) }

/-! ## Facts about the argument resolver -/

theorem includes_iff (args : List String) (x : String) : includes args x = true ↔ x ∈ args := by
  simp [includes]

theorem drop_indexOf_succ (flag : String) (args : List String) :
    slice args (indexOf args flag + 1) = (args.dropWhile (fun a => a != flag)).tail := by
  induction args with
  | nil => simp [slice, indexOf]
  | cons a rest ih =>
    unfold slice indexOf at *
    by_cases h : a = flag
    · subst h
      simp [List.indexOf_cons, List.dropWhile_cons]
    · have h2 : (a != flag) = true := by simpa using h
      have h3 : (a == flag) = false := by simpa using h
      simp [List.indexOf_cons, List.dropWhile_cons, h2, h3, ih]

/-- C3: when `--status` occurs among the arguments, `parseArgs` answers with the status
action; the identifiers are the arguments after the first `--status` that start with
`i-`, in order, with mode `specific`, unless there is none, in which case the
configuration list is used with mode `config`. -/
theorem parseArgs_status (args : List String) (config : Option (List String))
    (h : "--status" ∈ args) :
    parseArgs args config =
      if ((args.dropWhile (fun a => a != "--status")).tail.filter isInstanceId) ≠ [] then
        { action := .status, mode := .specific,
          instanceIds := some ((args.dropWhile (fun a => a != "--status")).tail.filter isInstanceId) }
      else
        { action := .status, mode := .config, instanceIds := config } := by
  have hne : args.length ≠ 0 := by
    intro h0
    rw [List.length_eq_zero] at h0
    simp [h0] at h
  have hinc : includes args "--status" = true := (includes_iff _ _).2 h
  unfold parseArgs
  simp only [hne, if_false, hinc, if_true, drop_indexOf_succ]
  by_cases hT : (args.dropWhile (fun a => a != "--status")).tail.filter isInstanceId = []
  · simp [hT]
  · have hpos : ((args.dropWhile (fun a => a != "--status")).tail.filter isInstanceId).length > 0 :=
      List.length_pos.2 hT
    simp [hT, hpos]

/-- The scenario of C3: `--status i-9` asks for the status of exactly `i-9`, whatever the
configuration holds. -/
theorem parseArgs_status_witness :
    "--status" ∈ ["--status", "i-9"] ∧
      parseArgs ["--status", "i-9"] (some ["i-1"]) =
        { action := .status, mode := .specific, instanceIds := some ["i-9"] } :=
  ⟨by decide, (parseArgs_status ["--status", "i-9"] (some ["i-1"]) (by decide)).trans (by decide)⟩

/-- C4: when `--instances` occurs and neither `--status` nor `--all` does, `parseArgs`
answers with the stop action in mode `specific` on the arguments after the first
`--instances` that start with `i-`, in order, also when there is no such argument. -/
theorem parseArgs_instances (args : List String) (config : Option (List String))
    (h : "--instances" ∈ args) (hs : "--status" ∉ args) (ha : "--all" ∉ args) :
    parseArgs args config =
      { action := .stop, mode := .specific,
        instanceIds :=
          some ((args.dropWhile (fun a => a != "--instances")).tail.filter isInstanceId) } := by
  have hne : args.length ≠ 0 := by
    intro h0
    rw [List.length_eq_zero] at h0
    simp [h0] at h
  have hinc : includes args "--instances" = true := (includes_iff _ _).2 h
  have hs2 : includes args "--status" = false := by
    rw [Bool.eq_false_iff]
    intro hc
    exact hs ((includes_iff _ _).1 hc)
  have ha2 : includes args "--all" = false := by
    rw [Bool.eq_false_iff]
    intro hc
    exact ha ((includes_iff _ _).1 hc)
  unfold parseArgs
  simp [hne, hinc, hs2, ha2, drop_indexOf_succ]

/-- The scenario of C4, and the case of C4 without any identifier: the list is empty and
the configuration list is not used. -/
theorem parseArgs_instances_witness :
    ("--instances" ∈ ["--instances", "i-5", "i-6"] ∧
      parseArgs ["--instances", "i-5", "i-6"] (some ["i-1"]) =
        { action := .stop, mode := .specific, instanceIds := some ["i-5", "i-6"] }) ∧
    ("--instances" ∈ ["--instances", "web"] ∧
      parseArgs ["--instances", "web"] (some ["i-1"]) =
        { action := .stop, mode := .specific, instanceIds := some [] }) :=
  ⟨⟨by decide,
    (parseArgs_instances ["--instances", "i-5", "i-6"] (some ["i-1"]) (by decide) (by decide)
      (by decide)).trans (by decide)⟩,
   ⟨by decide,
    (parseArgs_instances ["--instances", "web"] (some ["i-1"]) (by decide) (by decide)
      (by decide)).trans (by decide)⟩⟩

/-- C5: when none of `--status`, `--all`, `--instances` occurs (the empty argument list
included), `parseArgs` answers with the stop action: in mode `specific` on all the
arguments that start with `i-`, in order, when there is one, and otherwise in mode
`config` on the configuration list. -/
theorem parseArgs_bare (args : List String) (config : Option (List String))
    (hs : "--status" ∉ args) (ha : "--all" ∉ args) (hi : "--instances" ∉ args) :
    parseArgs args config =
      if args.any isInstanceId then
        { action := .stop, mode := .specific, instanceIds := some (args.filter isInstanceId) }
      else
        { action := .stop, mode := .config, instanceIds := config } := by
  have hs2 : includes args "--status" = false := by
    rw [Bool.eq_false_iff]
    intro hc
    exact hs ((includes_iff _ _).1 hc)
  have ha2 : includes args "--all" = false := by
    rw [Bool.eq_false_iff]
    intro hc
    exact ha ((includes_iff _ _).1 hc)
  have hi2 : includes args "--instances" = false := by
    rw [Bool.eq_false_iff]
    intro hc
    exact hi ((includes_iff _ _).1 hc)
  unfold parseArgs
  by_cases hany : args.any isInstanceId = true
  · have hpos : 0 < (args.filter isInstanceId).length := by
      rw [List.length_pos, Ne, List.filter_eq_nil_iff]
      intro hall
      rw [List.any_eq_true] at hany
      obtain ⟨a, hmem, hid⟩ := hany
      exact hall a hmem hid
    have hne : args.length ≠ 0 := by
      intro h0
      rw [List.length_eq_zero] at h0
      simp [h0] at hany
    simp only [hne, hs2, ha2, hi2, hany, if_true]
    simp [hpos]
  · have hnil : args.filter isInstanceId = [] := by
      rw [List.filter_eq_nil_iff]
      intro a hmem hid
      exact hany (List.any_eq_true.2 ⟨a, hmem, hid⟩)
    simp [hs2, ha2, hi2, hany, hnil]

/-- The scenario of C5: no argument at all and `config.instances = ["i-1"]`. -/
theorem parseArgs_bare_witness :
    "--status" ∉ ([] : List String) ∧ "--all" ∉ ([] : List String) ∧
      "--instances" ∉ ([] : List String) ∧
      parseArgs [] (some ["i-1"]) =
        { action := .stop, mode := .config, instanceIds := some ["i-1"] } :=
  ⟨by decide, by decide, by decide,
    (parseArgs_bare [] (some ["i-1"]) (by decide) (by decide) (by decide)).trans (by decide)⟩

/-- C6: when `--all` occurs and `--status` does not, `parseArgs` answers with the stop
action in mode `all` on the configuration list, whatever else the arguments hold. -/
theorem parseArgs_all (args : List String) (config : Option (List String))
    (ha : "--all" ∈ args) (hs : "--status" ∉ args) :
    parseArgs args config = { action := .stop, mode := .all, instanceIds := config } := by
  have hne : args.length ≠ 0 := by
    intro h0
    rw [List.length_eq_zero] at h0
    simp [h0] at ha
  have hinc : includes args "--all" = true := (includes_iff _ _).2 ha
  have hs2 : includes args "--status" = false := by
    rw [Bool.eq_false_iff]
    intro hc
    exact hs ((includes_iff _ _).1 hc)
  unfold parseArgs
  simp [hne, hinc, hs2]

/-- An instance of C6 in which `--instances` and identifiers stand next to `--all`. -/
theorem parseArgs_all_witness :
    "--all" ∈ ["i-3", "--instances", "i-4", "--all"] ∧
      "--status" ∉ ["i-3", "--instances", "i-4", "--all"] ∧
      parseArgs ["i-3", "--instances", "i-4", "--all"] (some ["i-1", "i-2"]) =
        { action := .stop, mode := .all, instanceIds := some ["i-1", "i-2"] } :=
  ⟨by decide, by decide,
    parseArgs_all ["i-3", "--instances", "i-4", "--all"] (some ["i-1", "i-2"]) (by decide)
      (by decide)⟩

/-! ## Facts about the directory client -/

theorem getInstanceDetails_eq (ec2 : Ec2Client) (ids : List String) :
    getInstanceDetails ec2 ids =
      match (ec2.describe ids).bind collectInstances with
      | .ok instances =>
        { events := [.describeRequest ids], completion := .returned instances }
      | .error error =>
        { events := [.describeRequest ids,
            .log .error ("Failed to fetch instance details: " ++ error.message)],
          completion := .returned [] } := by
  unfold getInstanceDetails sendDescribe
  cases h : ec2.describe ids with
  | error e => rfl
  | ok response =>
    cases h2 : collectInstances response with
    | error e => simp [Except.bind, Run.bind, Run.ofExcept, Run.tryCatch, emit, h2, Run.throw, logger, pure]
    | ok instances => simp [Except.bind, Run.bind, Run.ofExcept, Run.tryCatch, emit, h2, Run.throw, logger, pure]

theorem getInstanceDetails_returns (ec2 : Ec2Client) (ids : List String) :
    (getInstanceDetails ec2 ids).completion = .returned (describedRecords ec2 ids) := by
  unfold describedRecords
  rw [getInstanceDetails_eq]
  cases (ec2.describe ids).bind collectInstances <;> rfl

theorem getInstanceDetails_describeRequests (ec2 : Ec2Client) (ids : List String) :
    describeRequests (getInstanceDetails ec2 ids).events = [ids] := by
  rw [getInstanceDetails_eq]
  cases (ec2.describe ids).bind collectInstances <;> rfl

theorem getInstanceDetails_stopRequests (ec2 : Ec2Client) (ids : List String) :
    stopRequests (getInstanceDetails ec2 ids).events = [] := by
  rw [getInstanceDetails_eq]
  cases (ec2.describe ids).bind collectInstances <;> rfl

theorem orDefault_value (found : Option Tag) :
    orDefault (found.bind (fun tag => tag.Value)) "N/A" =
      match found with
      | none => "N/A"
      | some tag =>
        match tag.Value with
        | none => "N/A"
        | some value => if value = "" then "N/A" else value := by
  cases found with
  | none => rfl
  | some tag =>
    obtain ⟨key, value⟩ := tag
    cases value with
    | none => rfl
    | some v => by_cases hv : v = "" <;> simp [orDefault, hv]

theorem orDefault_nameTagValue (inst : Instance) :
    orDefault (nameTagValue inst) "N/A" = displayedName inst := by
  have hfind : ∀ tags : List Tag, tags.find? (fun tag => tag.Key == some "Name") =
      tags.find? (fun tag => decide (tag.Key = some "Name")) := by
    intro tags
    congr 1
    funext tag
    by_cases hk : tag.Key = some "Name" <;> simp [hk]
  unfold nameTagValue
  rw [orDefault_value]
  unfold displayedName firstNameTag
  cases hT : inst.Tags with
  | none => rfl
  | some tags => simp only [Option.bind, Option.getD, hfind]

theorem orDefault_jsOr (inst : Instance) :
    orDefault (jsOr inst.PublicIpAddress inst.PrivateIpAddress) "N/A" = displayedIp inst := by
  unfold displayedIp jsOr orDefault truthy presentNonEmpty
  cases hP : inst.PublicIpAddress with
  | none =>
    cases hQ : inst.PrivateIpAddress with
    | none => simp
    | some q => by_cases hq : q = "" <;> simp [hq]
  | some p =>
    by_cases hp : p = ""
    · cases hQ : inst.PrivateIpAddress with
      | none => simp [hp]
      | some q => by_cases hq : q = "" <;> simp [hp, hq]
    · simp [hp]

theorem pushInstance_ok (acc : List InstanceRecord) (inst : Instance)
    (h : inst.State.isSome = true) :
    pushInstance acc inst = .ok (acc ++ [displayedRecord inst]) := by
  unfold pushInstance displayedRecord
  cases hS : inst.State with
  | none => simp [hS] at h
  | some state => simp [orDefault_nameTagValue, orDefault_jsOr]

theorem forEachInstance_ok (found : List Instance) :
    ∀ acc : List InstanceRecord, found.all (fun inst => inst.State.isSome) = true →
      forEachInstance acc found = .ok (acc ++ found.map displayedRecord) := by
  induction found with
  | nil => intro acc _; simp [forEachInstance]
  | cons inst rest ih =>
    intro acc h
    rw [List.all_cons, Bool.and_eq_true] at h
    simp [forEachInstance, pushInstance_ok acc inst h.1, ih _ h.2]

theorem forEachInstance_error (found : List Instance) :
    ∀ acc : List InstanceRecord, found.all (fun inst => inst.State.isSome) = false →
      ∃ e, forEachInstance acc found = .error e := by
  induction found with
  | nil => intro acc h; simp at h
  | cons inst rest ih =>
    intro acc h
    cases hS : inst.State with
    | none => exact ⟨typeErrorReading "Name", by simp [forEachInstance, pushInstance, hS]⟩
    | some state =>
      have hrest : rest.all (fun inst => inst.State.isSome) = false := by
        rw [List.all_cons, hS] at h
        simpa using h
      obtain ⟨e, he⟩ := ih (acc ++ [displayedRecord inst]) hrest
      refine ⟨e, ?_⟩
      have hok := pushInstance_ok acc inst (by simp [hS])
      simp [forEachInstance, hok, he]

theorem forEachReservation_ok (reservations : List Reservation) :
    ∀ acc : List InstanceRecord,
      reservations.all (fun reservation =>
        match reservation.Instances with
        | none => false
        | some found => found.all (fun inst => inst.State.isSome)) = true →
      forEachReservation acc reservations =
        .ok (acc ++ (reservations.flatMap
          (fun reservation => reservation.Instances.getD [])).map displayedRecord) := by
  induction reservations with
  | nil => intro acc _; simp [forEachReservation]
  | cons reservation rest ih =>
    intro acc h
    rw [List.all_cons, Bool.and_eq_true] at h
    obtain ⟨h1, h2⟩ := h
    cases hI : reservation.Instances with
    | none => simp [hI] at h1
    | some found =>
      rw [hI] at h1
      simp [forEachReservation, hI, forEachInstance_ok found acc h1, ih _ h2]

theorem forEachReservation_error (reservations : List Reservation) :
    ∀ acc : List InstanceRecord,
      reservations.all (fun reservation =>
        match reservation.Instances with
        | none => false
        | some found => found.all (fun inst => inst.State.isSome)) = false →
      ∃ e, forEachReservation acc reservations = .error e := by
  induction reservations with
  | nil => intro acc h; simp at h
  | cons reservation rest ih =>
    intro acc h
    cases hI : reservation.Instances with
    | none => exact ⟨typeErrorReading "forEach", by simp [forEachReservation, hI]⟩
    | some found =>
      cases hA : found.all (fun inst => inst.State.isSome) with
      | false =>
        obtain ⟨e, he⟩ := forEachInstance_error found acc hA
        exact ⟨e, by simp [forEachReservation, hI, he]⟩
      | true =>
        have hrest : rest.all (fun reservation =>
            match reservation.Instances with
            | none => false
            | some found => found.all (fun inst => inst.State.isSome)) = false := by
          rw [List.all_cons, hI] at h
          simpa [hA] using h
        obtain ⟨e, he⟩ := ih (acc ++ found.map displayedRecord) hrest
        exact ⟨e, by simp [forEachReservation, hI, forEachInstance_ok found acc hA, he]⟩

theorem collectInstances_ok (response : DescribeInstancesResponse)
    (h : wellFormed response = true) :
    collectInstances response = .ok ((providerOrder response).map displayedRecord) := by
  unfold wellFormed at h
  unfold collectInstances providerOrder
  cases hR : response.Reservations with
  | none => simp [hR] at h
  | some reservations =>
    rw [hR] at h
    simpa using forEachReservation_ok reservations [] h

theorem collectInstances_error (response : DescribeInstancesResponse)
    (h : wellFormed response = false) :
    ∃ e, collectInstances response = .error e := by
  unfold wellFormed at h
  unfold collectInstances
  cases hR : response.Reservations with
  | none => exact ⟨_, rfl⟩
  | some reservations =>
    rw [hR] at h
    exact forEachReservation_error reservations [] h

/-! ## Facts about sequencing -/

theorem bind_eq (α β : Type) (r : Run α) (k : α → Run β) : (r >>= k) = Run.bind r k := rfl

theorem pure_eq (α : Type) (value : α) :
    (pure value : Run α) = { events := [], completion := .returned value } := rfl

theorem bind_returned (α β : Type) (evs : List Event) (value : α) (k : α → Run β) :
    Run.bind { events := evs, completion := .returned value } k =
      { events := evs ++ (k value).events, completion := (k value).completion } := rfl

theorem bind_emit (β : Type) (e : Event) (k : Unit → Run β) :
    Run.bind (emit e) k = { events := e :: (k ()).events, completion := (k ()).completion } := rfl

theorem forEach_logger (α : Type) (severity : Severity) (f : α → String) (xs : List α) :
    forEach (fun x => logger severity (f x)) xs =
      { events := xs.map (fun x => Event.log severity (f x)), completion := .returned () } := by
  induction xs with
  | nil => rfl
  | cons x rest ih =>
    unfold forEach
    rw [ih]
    rfl

theorem stopInstances_eq (ec2 : Ec2Client) (ids : List String) (h : ids ≠ []) :
    stopInstances ec2 (some ids) =
      Run.bind (logger .info ("Attempting to stop " ++ toString ids.length ++ " instance(s)..."))
        (fun _ => Run.bind (getInstanceDetails ec2 ids) (fun instances =>
          Run.bind (consoleLog "\nCurrent instance state:") (fun _ =>
            Run.bind (forEach (fun inst => logger .data (jsStr inst.id ++ " (" ++ inst.name ++
                ") - State: " ++ jsStr inst.state)) instances) (fun _ =>
              if ((instances.filter (fun i => i.state == some "running")).map
                  (fun i => i.id)).length = 0 then
                Run.bind (consoleLog "") (fun _ => logger .success
                  "All instances are already stopped or in a stopping state. No action needed.")
              else
                Run.bind (logger .info (toString ((instances.filter
                    (fun i => i.state == some "running")).map (fun i => i.id)).length ++
                    " instance(s) are running and will be stopped."))
                  (fun _ => Run.tryCatch
                    (stopTryBody ec2 ((instances.filter (fun i => i.state == some "running")).map
                      (fun i => i.id)))
                    (fun error => Run.bind (consoleLog "") (fun _ =>
                      Run.bind (logger .error ("Failed to stop instances: " ++ error.message))
                        (fun _ => processExit 1)))))))) := by
  have hlen : ids.length ≠ 0 := by
    intro h0
    exact h (List.length_eq_zero.1 h0)
  unfold stopInstances
  simp only [hlen, if_false]
  rfl

theorem bind_events (α β : Type) (r : Run α) (k : α → Run β) :
    (Run.bind r k).events =
      r.events ++ (match r.completion with
        | .returned value => (k value).events
        | _ => []) := by
  unfold Run.bind
  cases r.completion <;> simp

theorem bind_completion (α β : Type) (r : Run α) (k : α → Run β) :
    (Run.bind r k).completion =
      match r.completion with
      | .returned value => (k value).completion
      | .threw error => .threw error
      | .exited code => .exited code := by
  unfold Run.bind
  cases r.completion <;> simp

theorem stopRequests_append (xs ys : List Event) :
    stopRequests (xs ++ ys) = stopRequests xs ++ stopRequests ys := by
  simp [stopRequests]

theorem describeRequests_append (xs ys : List Event) :
    describeRequests (xs ++ ys) = describeRequests xs ++ describeRequests ys := by
  simp [describeRequests]

theorem describeRequests_log (severity : Severity) (msg : String) (rest : List Event) :
    describeRequests (.log severity msg :: rest) = describeRequests rest := rfl

theorem describeRequests_console (line : String) (rest : List Event) :
    describeRequests (.console line :: rest) = describeRequests rest := rfl

theorem stopRequests_log (severity : Severity) (msg : String) (rest : List Event) :
    stopRequests (.log severity msg :: rest) = stopRequests rest := rfl

theorem stopRequests_console (line : String) (rest : List Event) :
    stopRequests (.console line :: rest) = stopRequests rest := rfl

theorem printTransition_cases (change : InstanceStateChange) :
    (change.PreviousState.isSome && change.CurrentState.isSome) = true ∧
        (∃ msg, printTransition change =
          { events := [.log .data msg], completion := .returned () }) ∨
      (change.PreviousState.isSome && change.CurrentState.isSome) = false ∧
        (∃ e, printTransition change = { events := [], completion := .threw e }) := by
  unfold printTransition
  cases hP : change.PreviousState with
  | none => exact Or.inr ⟨by simp, _, rfl⟩
  | some previous =>
    cases hC : change.CurrentState with
    | none => exact Or.inr ⟨by simp, _, rfl⟩
    | some current => exact Or.inl ⟨by simp, _, rfl⟩

theorem forEach_printTransition (changes : List InstanceStateChange) :
    stopRequests (forEach printTransition changes).events = [] ∧
      describeRequests (forEach printTransition changes).events = [] ∧
      (changes.all (fun change => change.PreviousState.isSome && change.CurrentState.isSome) = true →
        (forEach printTransition changes).completion = .returned ()) ∧
      (changes.all (fun change => change.PreviousState.isSome && change.CurrentState.isSome) = false →
        ∃ e, (forEach printTransition changes).completion = .threw e) := by
  induction changes with
  | nil => exact ⟨rfl, rfl, fun _ => rfl, fun h => by simp at h⟩
  | cons change rest ih =>
    obtain ⟨ih1, ih2, ih3, ih4⟩ := ih
    unfold forEach
    rcases printTransition_cases change with ⟨hr, msg, hm⟩ | ⟨hr, e, he⟩
    · rw [hm, bind_returned]
      refine ⟨?_, ?_, ?_, ?_⟩
      · simpa [stopRequests] using ih1
      · simpa [describeRequests] using ih2
      · intro hall
        rw [List.all_cons, hr, Bool.true_and] at hall
        exact ih3 hall
      · intro hall
        rw [List.all_cons, hr, Bool.true_and] at hall
        exact ih4 hall
    · rw [he]
      refine ⟨rfl, rfl, ?_, ?_⟩
      · intro hall
        rw [List.all_cons, hr, Bool.false_and] at hall
        cases hall
      · intro _
        exact ⟨e, rfl⟩

theorem stopTryBody_requests (ec2 : Ec2Client) (payload : List (Option String)) :
    stopRequests (stopTryBody ec2 payload).events = [payload] ∧
      describeRequests (stopTryBody ec2 payload).events = [] := by
  unfold stopTryBody sendStop
  simp only [bind_eq]
  cases hS : ec2.stop payload with
  | error e => exact ⟨rfl, rfl⟩
  | ok response =>
    cases hC : response.StoppingInstances with
    | none => simp [Run.ofExcept, pure_eq, bind_events, bind_completion, emit, consoleLog, logger, hC,
        Run.throw, stopRequests, describeRequests]
    | some changes =>
      obtain ⟨h1, h2, _, _⟩ := forEach_printTransition changes
      simp only [stopRequests, describeRequests] at h1 h2
      simp [Run.ofExcept, pure_eq, bind_events, bind_completion, emit, consoleLog, logger, hC,
        stopRequests, describeRequests, h1, h2]

theorem stopTryBody_completion (ec2 : Ec2Client) (payload : List (Option String)) :
    ((stopCallFails ec2 payload || stopResponseUnreadable ec2 payload) = true →
        ∃ e, (stopTryBody ec2 payload).completion = .threw e) ∧
      ((stopCallFails ec2 payload || stopResponseUnreadable ec2 payload) = false →
        (stopTryBody ec2 payload).completion = .returned ()) := by
  unfold stopTryBody sendStop stopCallFails stopResponseUnreadable transitionsReadable
  simp only [bind_eq]
  cases hS : ec2.stop payload with
  | error e => exact ⟨fun _ => ⟨e, rfl⟩, fun h => by simp at h⟩
  | ok response =>
    obtain ⟨stopping⟩ := response
    cases stopping with
    | none =>
      refine ⟨fun _ => ⟨typeErrorReading "forEach", ?_⟩, fun h => by simp at h⟩
      simp [Run.ofExcept, pure_eq, bind_completion, emit, consoleLog, logger, Run.throw]
    | some changes =>
      obtain ⟨_, _, h3, h4⟩ := forEach_printTransition changes
      constructor
      · intro h
        obtain ⟨e, he⟩ := h4 (by simpa using h)
        exact ⟨e, by simp [Run.ofExcept, pure_eq, bind_completion, emit, consoleLog, logger, he]⟩
      · intro h
        have he := h3 (by simpa using h)
        simp [Run.ofExcept, pure_eq, bind_completion, emit, consoleLog, logger, he]

theorem stopInstances_split (ec2 : Ec2Client) (ids : List String) (h : ids ≠ []) :
    ∃ before : List Event, stopRequests before = [] ∧ describeRequests before = [ids] ∧
      stopInstances ec2 (some ids) =
        if ((describedRecords ec2 ids).filter (fun i => i.state == some "running")).map
            (fun i => i.id) = [] then
          { events := before ++ [.console "", .log .success
              "All instances are already stopped or in a stopping state. No action needed."],
            completion := .returned () }
        else
          Run.bind
            { events := before ++ [.log .info (toString (((describedRecords ec2 ids).filter
                (fun i => i.state == some "running")).map (fun i => i.id)).length ++
                " instance(s) are running and will be stopped.")],
              completion := .returned () }
            (fun _ => Run.tryCatch
              (stopTryBody ec2 (((describedRecords ec2 ids).filter
                (fun i => i.state == some "running")).map (fun i => i.id)))
              (fun error => Run.bind (consoleLog "") (fun _ =>
                Run.bind (logger .error ("Failed to stop instances: " ++ error.message))
                  (fun _ => processExit 1)))) := by
  have hg : getInstanceDetails ec2 ids =
      { events := (getInstanceDetails ec2 ids).events,
        completion := .returned (describedRecords ec2 ids) } := by
    rw [← getInstanceDetails_returns]
  refine ⟨[.log .info ("Attempting to stop " ++ toString ids.length ++ " instance(s)...")] ++
    (getInstanceDetails ec2 ids).events ++ [.console "\nCurrent instance state:"] ++
    (describedRecords ec2 ids).map (fun inst => Event.log .data (jsStr inst.id ++ " (" ++
      inst.name ++ ") - State: " ++ jsStr inst.state)), ?_, ?_, ?_⟩
  · rw [stopRequests_append, stopRequests_append, stopRequests_append,
      getInstanceDetails_stopRequests]
    simp [stopRequests]
  · rw [describeRequests_append, describeRequests_append, describeRequests_append,
      getInstanceDetails_describeRequests]
    simp [describeRequests]
  · rw [stopInstances_eq ec2 ids h, hg]
    generalize (getInstanceDetails ec2 ids).events = evs
    generalize describedRecords ec2 ids = recs
    simp only [forEach_logger]
    simp only [logger, consoleLog, bind_emit, bind_returned, List.length_eq_zero]
    split
    · simp [emit]
    · simp [emit, Run.bind]

theorem tryCatch_stop (ec2 : Ec2Client) (payload : List (Option String)) :
    stopRequests (Run.tryCatch (stopTryBody ec2 payload)
        (fun error => Run.bind (consoleLog "") (fun _ =>
          Run.bind (logger .error ("Failed to stop instances: " ++ error.message))
            (fun _ => processExit 1)))).events = [payload] ∧
      ((stopCallFails ec2 payload || stopResponseUnreadable ec2 payload) = true →
        ∃ evs msg, Run.tryCatch (stopTryBody ec2 payload)
          (fun error => Run.bind (consoleLog "") (fun _ =>
            Run.bind (logger .error ("Failed to stop instances: " ++ error.message))
              (fun _ => processExit 1))) =
          { events := evs ++ [.log .error msg], completion := .exited 1 }) ∧
      ((stopCallFails ec2 payload || stopResponseUnreadable ec2 payload) = false →
        (Run.tryCatch (stopTryBody ec2 payload)
          (fun error => Run.bind (consoleLog "") (fun _ =>
            Run.bind (logger .error ("Failed to stop instances: " ++ error.message))
              (fun _ => processExit 1)))).completion = .returned ()) := by
  obtain ⟨hreq, _⟩ := stopTryBody_requests ec2 payload
  obtain ⟨hfail, hfine⟩ := stopTryBody_completion ec2 payload
  cases hc : (stopCallFails ec2 payload || stopResponseUnreadable ec2 payload) with
  | true =>
    obtain ⟨e, he⟩ := hfail hc
    have heq : Run.tryCatch (stopTryBody ec2 payload)
        (fun error => Run.bind (consoleLog "") (fun _ =>
          Run.bind (logger .error ("Failed to stop instances: " ++ error.message))
            (fun _ => processExit 1))) =
        { events := ((stopTryBody ec2 payload).events ++ [.console ""]) ++
            [.log .error ("Failed to stop instances: " ++ e.message)],
          completion := .exited 1 } := by
      unfold Run.tryCatch
      rw [he]
      simp [consoleLog, logger, bind_emit, processExit]
    refine ⟨?_, fun _ => ⟨_, _, heq⟩, fun h => Bool.noConfusion h⟩
    rw [heq]
    simp only [stopRequests_append, hreq]
    rfl
  | false =>
    have he := hfine hc
    have heq : Run.tryCatch (stopTryBody ec2 payload)
        (fun error => Run.bind (consoleLog "") (fun _ =>
          Run.bind (logger .error ("Failed to stop instances: " ++ error.message))
            (fun _ => processExit 1))) = stopTryBody ec2 payload := by
      unfold Run.tryCatch
      rw [he]
    refine ⟨?_, fun h => Bool.noConfusion h, fun _ => ?_⟩
    · rw [heq, hreq]
    · rw [heq, he]

theorem running_filter (recs : List InstanceRecord) :
    recs.filter (fun i => i.state == some "running") =
      recs.filter (fun r => decide (r.state = some "running")) := by
  congr 1
  funext r
  by_cases hr : r.state = some "running" <;> simp [hr]

/-! ## The stop workflow -/

/-- C1: on a non-empty target list, the stop workflow issues no stop request when no
described record is in state `running`, and otherwise exactly one, whose payload is the
identifiers of the described records in state `running`, in describe order; every
identifier of a payload is that of a record observed in state `running`. -/
theorem stopInstances_requests (ec2 : Ec2Client) (ids : List String) (h : ids ≠ []) :
    stopRequests (stopInstances ec2 (some ids)).events =
        (if (describedRecords ec2 ids).any (fun r => decide (r.state = some "running")) then
          [((describedRecords ec2 ids).filter
            (fun r => decide (r.state = some "running"))).map (fun r => r.id)]
        else []) ∧
      ∀ payload ∈ stopRequests (stopInstances ec2 (some ids)).events, ∀ x ∈ payload,
        ∃ r ∈ describedRecords ec2 ids, r.id = x ∧ r.state = some "running" := by
  have hmain : stopRequests (stopInstances ec2 (some ids)).events =
      (if (describedRecords ec2 ids).any (fun r => decide (r.state = some "running")) then
        [((describedRecords ec2 ids).filter
          (fun r => decide (r.state = some "running"))).map (fun r => r.id)]
      else []) := by
    obtain ⟨before, hb, _, heq⟩ := stopInstances_split ec2 ids h
    rw [heq, running_filter]
    by_cases hany : (describedRecords ec2 ids).any (fun r => decide (r.state = some "running")) = true
    · have hne : ((describedRecords ec2 ids).filter
          (fun r => decide (r.state = some "running"))).map (fun r => r.id) ≠ [] := by
        rw [Ne, List.map_eq_nil_iff, List.filter_eq_nil_iff]
        intro hall
        rw [List.any_eq_true] at hany
        obtain ⟨r, hr, hs⟩ := hany
        exact hall r hr hs
      rw [if_neg hne, if_pos hany, bind_returned]
      simp only [stopRequests_append, hb, (tryCatch_stop ec2 _).1]
      rfl
    · have hnil : ((describedRecords ec2 ids).filter
          (fun r => decide (r.state = some "running"))).map (fun r => r.id) = [] := by
        rw [List.map_eq_nil_iff, List.filter_eq_nil_iff]
        intro r hr hs
        exact hany (List.any_eq_true.2 ⟨r, hr, hs⟩)
      rw [if_pos hnil, if_neg hany]
      simp only [stopRequests_append, hb]
      rfl
  refine ⟨hmain, ?_⟩
  intro payload hp x hx
  rw [hmain] at hp
  split at hp
  · rw [List.mem_singleton] at hp
    subst hp
    rw [List.mem_map] at hx
    obtain ⟨r, hr, hid⟩ := hx
    rw [List.mem_filter] at hr
    exact ⟨r, hr.1, hid, by simpa using hr.2⟩
  · cases hp

/-- An instance of C1: `i-7` is running and `i-8` is stopped, and the one stop request
names `i-7` only. -/
theorem stopInstances_requests_witness :
    ["i-7", "i-8"] ≠ [] ∧
      stopRequests (stopInstances healthyClient (some ["i-7", "i-8"])).events = [[some "i-7"]] :=
  ⟨by decide,
    (stopInstances_requests healthyClient ["i-7", "i-8"] (by decide)).1.trans (by decide)⟩

/-! ## The status workflow -/

theorem printRow_requests (inst : InstanceRecord) :
    describeRequests (printRow inst).events = [] ∧ stopRequests (printRow inst).events = [] := by
  unfold printRow
  cases inst.id <;> exact ⟨rfl, rfl⟩

theorem forEach_printRow_requests (instances : List InstanceRecord) :
    describeRequests (forEach printRow instances).events = [] ∧
      stopRequests (forEach printRow instances).events = [] := by
  induction instances with
  | nil => exact ⟨rfl, rfl⟩
  | cons inst rest ih =>
    unfold forEach
    rw [bind_events, describeRequests_append, stopRequests_append, (printRow_requests inst).1,
      (printRow_requests inst).2]
    cases (printRow inst).completion with
    | returned value => simpa using ih
    | threw e => exact ⟨rfl, rfl⟩
    | exited code => exact ⟨rfl, rfl⟩

theorem bind_requests_of_quiet (α : Type) (r : Run Unit) (k : Unit → Run α)
    (hr : describeRequests r.events = [] ∧ stopRequests r.events = [])
    (hk : describeRequests (k ()).events = [] ∧ stopRequests (k ()).events = []) :
    describeRequests (Run.bind r k).events = [] ∧ stopRequests (Run.bind r k).events = [] := by
  rw [bind_events, describeRequests_append, stopRequests_append, hr.1, hr.2]
  cases r.completion with
  | returned value => simpa using hk
  | threw e => exact ⟨rfl, rfl⟩
  | exited code => exact ⟨rfl, rfl⟩

theorem checkStatus_table_requests (instances : List InstanceRecord) :
    describeRequests (Run.bind (consoleLog "Instance Status:") (fun _ =>
        Run.bind (consoleLog (jsRepeat "─" 100)) (fun _ =>
          Run.bind (consoleLog (padEnd "INSTANCE ID" 22 ++ " | " ++ padEnd "NAME" 27 ++ " | " ++
              padEnd "IP ADDRESS" 15 ++ " | STATUS")) (fun _ =>
            Run.bind (consoleLog (jsRepeat "─" 100)) (fun _ =>
              Run.bind (forEach printRow instances) (fun _ =>
                consoleLog (jsRepeat "─" 100))))))).events = [] ∧
      stopRequests (Run.bind (consoleLog "Instance Status:") (fun _ =>
        Run.bind (consoleLog (jsRepeat "─" 100)) (fun _ =>
          Run.bind (consoleLog (padEnd "INSTANCE ID" 22 ++ " | " ++ padEnd "NAME" 27 ++ " | " ++
              padEnd "IP ADDRESS" 15 ++ " | STATUS")) (fun _ =>
            Run.bind (consoleLog (jsRepeat "─" 100)) (fun _ =>
              Run.bind (forEach printRow instances) (fun _ =>
                consoleLog (jsRepeat "─" 100))))))).events = [] := by
  have hc : ∀ line, describeRequests (consoleLog line).events = [] ∧
      stopRequests (consoleLog line).events = [] := fun _ => ⟨rfl, rfl⟩
  refine bind_requests_of_quiet _ _ _ (hc _) ?_
  refine bind_requests_of_quiet _ _ _ (hc _) ?_
  refine bind_requests_of_quiet _ _ _ (hc _) ?_
  refine bind_requests_of_quiet _ _ _ (hc _) ?_
  exact bind_requests_of_quiet _ _ _ (forEach_printRow_requests instances) (hc _)

theorem checkStatus_requests (ec2 : Ec2Client) (ids : List String) (h : ids ≠ []) :
    describeRequests (checkStatus ec2 (some ids)).events = [ids] ∧
      stopRequests (checkStatus ec2 (some ids)).events = [] := by
  have hlen : ids.length ≠ 0 := by
    intro h0
    exact h (List.length_eq_zero.1 h0)
  have hg : getInstanceDetails ec2 ids =
      { events := (getInstanceDetails ec2 ids).events,
        completion := .returned (describedRecords ec2 ids) } := by
    rw [← getInstanceDetails_returns]
  have hd := getInstanceDetails_describeRequests ec2 ids
  have hs := getInstanceDetails_stopRequests ec2 ids
  unfold checkStatus
  simp only [hlen, if_false, bind_eq]
  rw [hg]
  generalize (getInstanceDetails ec2 ids).events = evs at hd hs
  generalize describedRecords ec2 ids = recs
  simp only [logger, consoleLog, bind_emit, bind_returned]
  by_cases hr : recs.length = 0
  · simp only [hr, if_true, emit, describeRequests_append, stopRequests_append,
      describeRequests_log, describeRequests_console, stopRequests_log, stopRequests_console,
      hd, hs]
    exact ⟨rfl, rfl⟩
  · have ht := checkStatus_table_requests recs
    simp only [consoleLog, bind_emit, describeRequests_console, stopRequests_console] at ht
    simp only [hr, if_false, describeRequests_append, stopRequests_append,
      describeRequests_log, describeRequests_console, stopRequests_log, stopRequests_console,
      hd, hs, ht.1, ht.2]
    exact ⟨rfl, rfl⟩

/-- C2: with no target list or an empty one, `checkStatus` and `stopInstances` return
without any describe or stop request; and whatever the targets are, a describe request
issued by either workflow never carries an empty identifier list. -/
theorem empty_targets_no_remote_call (ec2 : Ec2Client) (ids : Option (List String)) :
    ((ids = none ∨ ids = some []) →
        (describeRequests (checkStatus ec2 ids).events = [] ∧
          stopRequests (checkStatus ec2 ids).events = [] ∧
          (checkStatus ec2 ids).completion = .returned ()) ∧
        (describeRequests (stopInstances ec2 ids).events = [] ∧
          stopRequests (stopInstances ec2 ids).events = [] ∧
          (stopInstances ec2 ids).completion = .returned ())) ∧
      (∀ sent : List String,
        sent ∈ describeRequests (checkStatus ec2 ids).events ∨
          sent ∈ describeRequests (stopInstances ec2 ids).events → sent ≠ []) := by
  have hempty : (ids = none ∨ ids = some []) →
      (describeRequests (checkStatus ec2 ids).events = [] ∧
        stopRequests (checkStatus ec2 ids).events = [] ∧
        (checkStatus ec2 ids).completion = .returned ()) ∧
      (describeRequests (stopInstances ec2 ids).events = [] ∧
        stopRequests (stopInstances ec2 ids).events = [] ∧
        (stopInstances ec2 ids).completion = .returned ()) := by
    rintro (hnone | hnil)
    · subst hnone
      exact ⟨⟨rfl, rfl, rfl⟩, ⟨rfl, rfl, rfl⟩⟩
    · subst hnil
      exact ⟨⟨rfl, rfl, rfl⟩, ⟨rfl, rfl, rfl⟩⟩
  refine ⟨hempty, ?_⟩
  intro sent hsent
  cases ids with
  | none =>
    have hn := hempty (Or.inl rfl)
    rw [hn.1.1, hn.2.1] at hsent
    simp at hsent
  | some l =>
    by_cases hl : l = []
    · subst hl
      have hn := hempty (Or.inr rfl)
      rw [hn.1.1, hn.2.1] at hsent
      simp at hsent
    · have hstop : describeRequests (stopInstances ec2 (some l)).events = [l] := by
        obtain ⟨before, _, hb, heq⟩ := stopInstances_split ec2 l hl
        rw [heq]
        split
        · simp only [describeRequests_append, hb]
          rfl
        · rw [bind_returned]
          obtain ⟨_, hquiet⟩ := stopTryBody_requests ec2
            (((describedRecords ec2 l).filter (fun i => i.state == some "running")).map
              (fun i => i.id))
          have htry : describeRequests (Run.tryCatch
              (stopTryBody ec2 (((describedRecords ec2 l).filter
                (fun i => i.state == some "running")).map (fun i => i.id)))
              (fun error => Run.bind (consoleLog "") (fun _ =>
                Run.bind (logger .error ("Failed to stop instances: " ++ error.message))
                  (fun _ => processExit 1)))).events = [] := by
            unfold Run.tryCatch
            split
            · simp only [describeRequests_append, hquiet]
              rfl
            · exact hquiet
          simp only [describeRequests_append, hb, htry]
          rfl
      rw [(checkStatus_requests ec2 l hl).1, hstop] at hsent
      simp at hsent
      rw [hsent]
      exact hl

/-- An instance of C2: the healthy client is never contacted for an empty target list. -/
theorem empty_targets_no_remote_call_witness :
    (some [] = (none : Option (List String)) ∨ some [] = some ([] : List String)) ∧
      describeRequests (checkStatus healthyClient (some [])).events = [] ∧
      describeRequests (stopInstances healthyClient (some [])).events = [] :=
  ⟨Or.inr rfl,
    ((empty_targets_no_remote_call healthyClient (some [])).1 (Or.inr rfl)).1.1,
    ((empty_targets_no_remote_call healthyClient (some [])).1 (Or.inr rfl)).2.1⟩

theorem stopInstances_of_empty_describe (ec2 : Ec2Client) (ids : List String) (h : ids ≠ [])
    (hempty : describedRecords ec2 ids = []) :
    logged .warning (stopInstances ec2 (some ids)).events = [] ∧
      logged .success (stopInstances ec2 (some ids)).events =
        ["All instances are already stopped or in a stopping state. No action needed."] ∧
      (stopInstances ec2 (some ids)).completion = .returned () := by
  have hg : getInstanceDetails ec2 ids =
      { events := (getInstanceDetails ec2 ids).events, completion := .returned [] } := by
    rw [← hempty, ← getInstanceDetails_returns]
  have hev : logged .warning (getInstanceDetails ec2 ids).events = [] ∧
      logged .success (getInstanceDetails ec2 ids).events = [] := by
    rw [getInstanceDetails_eq]
    cases (ec2.describe ids).bind collectInstances <;> exact ⟨rfl, rfl⟩
  rw [stopInstances_eq ec2 ids h, hg]
  generalize (getInstanceDetails ec2 ids).events = evs at hev
  simp only [logger, consoleLog, bind_emit, bind_returned, forEach, pure_eq, emit,
    List.filter_nil, List.map_nil, List.length_nil, if_true]
  simp only [logged, List.filterMap_cons, List.filterMap_append, List.filterMap_nil] at hev ⊢
  simp [hev.1, hev.2]

/-- C7, on the code: the target is `i-1` and `getInstanceDetails` returns the empty
sequence, once because the describe request is rejected and once because the response
holds no reservation.  `stopInstances` still computes the eligible subset, logs no
warning, and ends with the success message "All instances are already stopped or in a
stopping state"; `checkStatus` on the same input logs the warning "No instances found or
error occurred." -/
theorem stopInstances_empty_describe_logs_success :
    (describedRecords describeRejectedClient ["i-1"] = [] ∧
      logged .warning (stopInstances describeRejectedClient (some ["i-1"])).events = [] ∧
      logged .success (stopInstances describeRejectedClient (some ["i-1"])).events =
        ["All instances are already stopped or in a stopping state. No action needed."] ∧
      stopRequests (stopInstances describeRejectedClient (some ["i-1"])).events = [] ∧
      (stopInstances describeRejectedClient (some ["i-1"])).completion = .returned () ∧
      logged .warning (checkStatus describeRejectedClient (some ["i-1"])).events =
        ["No instances found or error occurred."]) ∧
    (describedRecords emptyClient ["i-1"] = [] ∧
      logged .warning (stopInstances emptyClient (some ["i-1"])).events = [] ∧
      logged .success (stopInstances emptyClient (some ["i-1"])).events =
        ["All instances are already stopped or in a stopping state. No action needed."] ∧
      logged .warning (checkStatus emptyClient (some ["i-1"])).events =
        ["No instances found or error occurred."]) := by
  decide

/-- C8 as stated fails: the stop request for `i-7` is answered (the remote call does not
fail) by a response without `StoppingInstances`, and the process still exits with
code 1. -/
theorem stopInstances_exit_without_call_failure :
    (stopInstances bareStopResponseClient (some ["i-7"])).completion = .exited 1 ∧
      stopRequests (stopInstances bareStopResponseClient (some ["i-7"])).events =
        [[some "i-7"]] ∧
      stopCallFails bareStopResponseClient [some "i-7"] = false := by
  decide

/-- C8, amended: `stopInstances` ends the process with exit code 1 exactly when a stop
request was issued and either the remote call failed or its response could not be read
(no `StoppingInstances`, or an element without `PreviousState` or `CurrentState`); the
last thing done before the exit is an `[ERROR]` line; in every other case
`stopInstances` returns normally. -/
theorem stopInstances_exit (ec2 : Ec2Client) (ids : Option (List String)) :
    ((stopInstances ec2 ids).completion = .exited 1 ↔
        ∃ payload ∈ stopRequests (stopInstances ec2 ids).events,
          stopCallFails ec2 payload = true ∨ stopResponseUnreadable ec2 payload = true) ∧
      ((stopInstances ec2 ids).completion = .exited 1 →
        ∃ evs msg, (stopInstances ec2 ids).events = evs ++ [.log .error msg]) ∧
      ((stopInstances ec2 ids).completion ≠ .exited 1 →
        (stopInstances ec2 ids).completion = .returned ()) := by
  have hquiet : ∀ r : Run Unit, stopRequests r.events = [] → r.completion = .returned () →
      (r.completion = .exited 1 ↔
        ∃ payload ∈ stopRequests r.events,
          stopCallFails ec2 payload = true ∨ stopResponseUnreadable ec2 payload = true) ∧
      (r.completion = .exited 1 → ∃ evs msg, r.events = evs ++ [.log .error msg]) ∧
      (r.completion ≠ .exited 1 → r.completion = .returned ()) := by
    intro r hreq hret
    rw [hreq, hret]
    refine ⟨⟨fun hc => (by cases hc), ?_⟩, fun hc => (by cases hc), fun _ => rfl⟩
    rintro ⟨payload, hmem, _⟩
    cases hmem
  cases ids with
  | none => exact hquiet _ rfl rfl
  | some l =>
    by_cases hl : l = []
    · subst hl
      exact hquiet _ rfl rfl
    · obtain ⟨before, hb, _, heq⟩ := stopInstances_split ec2 l hl
      rw [heq]
      split
      · refine hquiet _ ?_ rfl
        simp only [stopRequests_append, hb]
        rfl
      · rw [bind_returned]
        obtain ⟨hreq, hfail, hfine⟩ := tryCatch_stop ec2
          (((describedRecords ec2 l).filter (fun i => i.state == some "running")).map
            (fun i => i.id))
        have hreq2 : stopRequests ((before ++ [Event.log .info (toString
            (((describedRecords ec2 l).filter (fun i => i.state == some "running")).map
              (fun i => i.id)).length ++ " instance(s) are running and will be stopped.")]) ++
            (Run.tryCatch (stopTryBody ec2 (((describedRecords ec2 l).filter
                (fun i => i.state == some "running")).map (fun i => i.id)))
              (fun error => Run.bind (consoleLog "") (fun _ =>
                Run.bind (logger .error ("Failed to stop instances: " ++ error.message))
                  (fun _ => processExit 1)))).events) =
            [((describedRecords ec2 l).filter (fun i => i.state == some "running")).map
              (fun i => i.id)] := by
          simp only [stopRequests_append, hb, hreq]
          rfl
        simp only [hreq2, List.mem_singleton, exists_eq_left]
        cases hc : (stopCallFails ec2 (((describedRecords ec2 l).filter
            (fun i => i.state == some "running")).map (fun i => i.id)) ||
            stopResponseUnreadable ec2 (((describedRecords ec2 l).filter
              (fun i => i.state == some "running")).map (fun i => i.id))) with
        | true =>
          obtain ⟨evs, msg, htry⟩ := hfail hc
          rw [htry]
          refine ⟨⟨fun _ => (by simpa using hc), fun _ => rfl⟩, fun _ => ?_, fun hne => absurd rfl hne⟩
          exact ⟨(before ++ [Event.log .info (toString
            (((describedRecords ec2 l).filter (fun i => i.state == some "running")).map
              (fun i => i.id)).length ++ " instance(s) are running and will be stopped.")]) ++
            evs, msg, by simp⟩
        | false =>
          have hret := hfine hc
          rw [hret]
          refine ⟨⟨fun hx => (by cases hx), fun hx => ?_⟩, fun hx => (by cases hx), fun _ => rfl⟩
          rw [Bool.or_eq_false_iff] at hc
          rcases hx with hx | hx
          · rw [hc.1] at hx
            cases hx
          · rw [hc.2] at hx
            cases hx

/-- The scenario of C8 (`i-7` is described as running and the stop request answers
`running → stopping`: the workflow returns normally), and the fatal path: the stop request
for `i-7` is rejected and the process exits with code 1. -/
theorem stopInstances_exit_witness :
    ((stopInstances healthyClient (some ["i-7"])).completion ≠ .exited 1 ∧
      (stopInstances healthyClient (some ["i-7"])).completion = .returned ()) ∧
    ((∃ payload ∈ stopRequests (stopInstances stopRejectedClient (some ["i-7"])).events,
        stopCallFails stopRejectedClient payload = true ∨
          stopResponseUnreadable stopRejectedClient payload = true) ∧
      (stopInstances stopRejectedClient (some ["i-7"])).completion = .exited 1) :=
  ⟨⟨by decide, (stopInstances_exit healthyClient (some ["i-7"])).2.2 (by decide)⟩,
   ⟨⟨[some "i-7"], by decide, Or.inl (by decide)⟩,
    (stopInstances_exit stopRejectedClient (some ["i-7"])).1.2
      ⟨[some "i-7"], by decide, Or.inl (by decide)⟩⟩⟩

/-! ## The directory client -/

/-- C9: when the describe request is rejected, or its response lacks `Reservations`, the
`Instances` of a reservation or the `State` of an instance, `getInstanceDetails` returns
to its caller: it logs one error line and returns the empty sequence. -/
theorem getInstanceDetails_failure (ec2 : Ec2Client) (ids : List String)
    (h : (∃ e, ec2.describe ids = .error e) ∨
      (∃ response, ec2.describe ids = .ok response ∧ wellFormed response = false)) :
    ∃ e : JsError, getInstanceDetails ec2 ids =
      { events := [.describeRequest ids,
          .log .error ("Failed to fetch instance details: " ++ e.message)],
        completion := .returned [] } := by
  rw [getInstanceDetails_eq]
  rcases h with ⟨e, he⟩ | ⟨response, hr, hwf⟩
  · exact ⟨e, by rw [he]; rfl⟩
  · obtain ⟨e, he⟩ := collectInstances_error response hwf
    exact ⟨e, by rw [hr]; simp [Except.bind, he]⟩

/-- Two instances of C9: a rejected describe request, and a response in which the second
instance has no `State` (the record of the first instance is dropped as well). -/
theorem getInstanceDetails_failure_witness :
    ((∃ e, describeRejectedClient.describe ["i-1"] = .error e) ∧
      ∃ e : JsError, getInstanceDetails describeRejectedClient ["i-1"] =
        { events := [.describeRequest ["i-1"],
            .log .error ("Failed to fetch instance details: " ++ e.message)],
          completion := .returned [] }) ∧
    ((∃ response, statelessClient.describe ["i-7", "i-8"] = .ok response ∧
        wellFormed response = false) ∧
      ∃ e : JsError, getInstanceDetails statelessClient ["i-7", "i-8"] =
        { events := [.describeRequest ["i-7", "i-8"],
            .log .error ("Failed to fetch instance details: " ++ e.message)],
          completion := .returned [] }) :=
  ⟨⟨⟨_, rfl⟩, getInstanceDetails_failure describeRejectedClient ["i-1"] (Or.inl ⟨_, rfl⟩)⟩,
   ⟨⟨_, rfl, by decide⟩,
    getInstanceDetails_failure statelessClient ["i-7", "i-8"] (Or.inr ⟨_, rfl, by decide⟩)⟩⟩

theorem displayedRecord_eq_claimedRecord (inst : Instance)
    (hname : ∀ tag, firstNameTag inst = some tag → tag.Value ≠ some "")
    (hpublic : inst.PublicIpAddress ≠ some "") (hprivate : inst.PrivateIpAddress ≠ some "") :
    displayedRecord inst = claimedRecord inst := by
  have hn : displayedName inst = claimedName inst := by
    unfold displayedName claimedName
    cases hF : firstNameTag inst with
    | none => rfl
    | some tag =>
      have hv := hname tag hF
      obtain ⟨key, value⟩ := tag
      cases value with
      | none => rfl
      | some v =>
        have hne : v ≠ "" := fun hc => hv (by rw [hc])
        simp [hne]
  have hi : displayedIp inst = claimedIp inst := by
    unfold displayedIp claimedIp presentNonEmpty
    cases hP : inst.PublicIpAddress with
    | some p =>
      have hne : p ≠ "" := fun hc => hpublic (by rw [hP, hc])
      simp [hne]
    | none =>
      cases hQ : inst.PrivateIpAddress with
      | some q =>
        have hne : q ≠ "" := fun hc => hprivate (by rw [hQ, hc])
        simp [hne]
      | none => simp
  unfold displayedRecord claimedRecord
  rw [hn, hi]

/-- C10 as stated fails: the `Name` tag of `i-1` is present with the empty string as its
value; the claim announces that value as the name, the code stores `N/A`. -/
theorem getInstanceDetails_blank_name :
    wellFormed (oneReservation [blankNameI1]) = true ∧
      (getInstanceDetails blankNameClient ["i-1"]).completion =
        .returned [{ id := some "i-1", state := some "running", name := "N/A", ip := "10.0.0.5" }] ∧
      (providerOrder (oneReservation [blankNameI1])).map claimedRecord =
        [{ id := some "i-1", state := some "running", name := "", ip := "10.0.0.5" }] := by
  decide

/-- C10, amended: for a describe response that has `Reservations`, the `Instances` of
each reservation and the `State` of each instance, `getInstanceDetails` returns one record
per instance in provider order; `id` is the `InstanceId`, `state` is `State.Name`, `name`
is the value of the first tag whose key is `Name` when that value is present and not
empty and `N/A` otherwise, and `ip` is the public address when present and not empty,
otherwise the private address when present and not empty, otherwise `N/A`. -/
theorem getInstanceDetails_records (ec2 : Ec2Client) (ids : List String)
    (response : DescribeInstancesResponse) (hcall : ec2.describe ids = .ok response)
    (hwf : wellFormed response = true) :
    getInstanceDetails ec2 ids =
      { events := [.describeRequest ids],
        completion := .returned ((providerOrder response).map displayedRecord) } := by
  rw [getInstanceDetails_eq, hcall]
  simp [Except.bind, collectInstances_ok response hwf]

/-- An instance of the amended C10: two instances of one reservation, the first with a
`Name` tag and both addresses, the second without tags and with a private address only. -/
theorem getInstanceDetails_records_witness :
    healthyClient.describe ["i-7", "i-8"] = .ok (oneReservation [runningI7, stoppedI8]) ∧
      wellFormed (oneReservation [runningI7, stoppedI8]) = true ∧
      getInstanceDetails healthyClient ["i-7", "i-8"] =
        { events := [.describeRequest ["i-7", "i-8"]],
          completion := .returned
            [{ id := some "i-7", state := some "running", name := "web", ip := "203.0.113.7" },
             { id := some "i-8", state := some "stopped", name := "N/A", ip := "10.0.0.8" }] } :=
  ⟨rfl, by decide,
    (getInstanceDetails_records healthyClient ["i-7", "i-8"]
      (oneReservation [runningI7, stoppedI8]) rfl (by decide)).trans (by decide)⟩

end Ec2Shutdown
